import Mathlib

/-!
Verification development for the teacher-dashboard backend (`src/app.py`).

The file embeds, as executable Lean definitions, the orchestration code the
claims are about:

* the dispatch-and-poll workflow (`/generate_itp`, `check_itp_status_local`);
* the generate-and-store workflow (`/generate_icp`, `invoke_lambda`);
* the provisioning saga (`/process_all` with its helper adapters);
* the idempotent student-subject linker (`/update_student_subjects`).

External collaborators (DynamoDB tables, HTTP gateways, the Lambda invoker)
are modelled as explicit oracle/state parameters; everything else follows the
Python control flow line by line.
-/

namespace TeacherDashboard

/-- A Python exception escaping or being caught inside a handler. -/
inductive PyExc
  | keyError (k : String)
  | jsonDecodeError
  | attributeError
  deriving DecidableEq, Repr

/-- The `str(e)` text the handlers put into their 400/500 error bodies. -/
def pyExcMsg : PyExc → String
  | .keyError k => "KeyError: " ++ k
  | .jsonDecodeError => "JSONDecodeError"
  | .attributeError => "AttributeError"

/-- Whether an adapter call completed without raising. -/
def exceptOk {α : Type} : Except PyExc α → Bool
  | .ok _ => true
  | .error _ => false

/-! ## Dispatch-and-poll workflow (`/generate_itp`)

`check_itp_status_local(itp_id, user_id=None, pre_defined=True)` reads one of
two DynamoDB tables and inspects the item's `Generated` attribute, which is
three-valued: `True`, `False`, or absent. -/

/-- A row of `Question` / `User_Infinite_TestSeries`: the `Generated` flag
(`some true` / `some false`, or `none` when the attribute is absent) and the
`series_title` attribute. -/
structure JobItem where
  Generated : Option Bool
  series_title : Option String
  deriving DecidableEq, Repr

/-- The two status tables: `Question_Prod` keyed by id alone (predefined jobs)
and `User_ITP_Prod` keyed by (email, id) (user-scoped jobs). -/
structure ITPStores where
  questionProd : String → Option JobItem
  userItp : String → String → Option JobItem

/-- The Python value stored under `isGenerated` in the responses of
`check_itp_status_local`: `True`, `False`, or the string `"error"`. -/
inductive GenFlagVal
  | vTrue
  | vFalse
  | vErrorStr
  deriving DecidableEq, Repr

/-- Python truthiness of `check_resp.get("isGenerated")`: a missing key is
`None` (falsy), `False` is falsy, `True` is truthy, and the nonempty string
`"error"` is truthy. -/
def truthyGenFlag : Option GenFlagVal → Bool
  | none => false
  | some .vFalse => false
  | some .vTrue => true
  | some .vErrorStr => true

/-- The dict returned by `check_itp_status_local`: its `statusCode`, the
`isGenerated` value if that key is present, and the id/title/message fields. -/
structure ITPStatusResp where
  statusCode : Nat
  isGenerated : Option GenFlagVal
  id : Option String
  title : Option String
  message : Option String
  deriving DecidableEq, Repr

/-- `check_itp_status_local` from `src/app.py`: reads `Question_Prod` when
`pre_defined` else `User_ITP_Prod` keyed by (`user_id`, id) — a `None`
`user_id` there makes the DynamoDB call raise, which the handler catches into
a 500 response.  A present item maps `Generated=True` to a 200/`True`
response, `Generated=False` to a 200/`False` response, and an absent
`Generated` attribute to `{"statusCode": 400, "isGenerated": "error"}`;
an absent item yields `{"statusCode": 404, "message": "ITP not found"}`. -/
def check_itp_status_local (stores : ITPStores) (itp_id : String)
    (user_id : Option String) (pre_defined : Bool) : ITPStatusResp :=
  let item? : Except String (Option JobItem) :=
    if pre_defined then .ok (stores.questionProd itp_id)
    else
      match user_id with
      | some u => .ok (stores.userItp u itp_id)
      | none => .error "invalid key"
  match item? with
  | .error e =>
      { statusCode := 500, isGenerated := none, id := none, title := none,
        message := some e }
  | .ok (some item) =>
      match item.Generated with
      | some true =>
          { statusCode := 200, isGenerated := some .vTrue, id := some itp_id,
            title := item.series_title, message := none }
      | some false =>
          { statusCode := 200, isGenerated := some .vFalse, id := some itp_id,
            title := item.series_title, message := none }
      | none =>
          { statusCode := 400, isGenerated := some .vErrorStr, id := none,
            title := none, message := none }
  | .ok none =>
      { statusCode := 404, isGenerated := none, id := none, title := none,
        message := some "ITP not found" }

/-- `max_attempts = 80` in `api_generate_itp`. -/
def max_attempts : Nat := 80

/-- `interval = 3` (seconds slept before every poll) in `api_generate_itp`. -/
def interval : Nat := 3

/-- Outcome of the polling phase: the 200 "success" JSON (wrapping the last
status response) or the 202 "timeout" JSON carrying the job id. -/
inductive PollOutcome
  | success (data : ITPStatusResp)
  | timeout (id : String)
  deriving DecidableEq, Repr

/-- One run of the poll loop: final outcome, number of poll attempts actually
performed, and total time spent in `time.sleep`. -/
structure PollRun where
  outcome : PollOutcome
  attempts : Nat
  slept : Nat
  deriving DecidableEq, Repr

/-- The `for attempt in range(max_attempts)` loop of `api_generate_itp`:
each iteration sleeps `interval`, calls
`check_itp_status_local(itp_id, user_id, pre_defined=True)` and returns the
success JSON when `check_resp.get("isGenerated")` is truthy; exhausting the
attempts returns the timeout JSON.  `stores` is indexed by attempt number so
the tables may change while the loop sleeps; `fuel` counts the remaining
attempts, `k` the current attempt index. -/
def pollLoopAux (stores : Nat → ITPStores) (itp_id : String)
    (user_id : Option String) : Nat → Nat → PollRun
  | 0, _ => ⟨.timeout itp_id, 0, 0⟩
  | fuel + 1, k =>
      let check_resp := check_itp_status_local (stores k) itp_id user_id true
      if truthyGenFlag check_resp.isGenerated then
        ⟨.success check_resp, 1, interval⟩
      else
        let r := pollLoopAux stores itp_id user_id fuel (k + 1)
        ⟨r.outcome, r.attempts + 1, r.slept + interval⟩

/-- The body of the `initialize` response: `body.get("generating")` and
`body["id"]` (absent id raises `KeyError`). -/
structure InitBody where
  generating : Option Bool
  id : Option String
  deriving DecidableEq, Repr

/-- The parsed `initialize_itp` response: `init_resp["statusCode"]` and
`init_resp["body"]` (`none` when the `body` key is absent). -/
structure InitResp where
  statusCode : Nat
  body : Option InitBody
  deriving DecidableEq, Repr

/-- The JSON fields of a `/generate_itp` request that the handler itself
reads: `data.get("user_id")` and, for completeness of the request model, a
`predefined` flag a client might send (the handler never reads it). -/
structure ITPRequest where
  user_id : Option String
  predefined : Option Bool
  deriving DecidableEq, Repr

/-- The possible responses of `api_generate_itp`. -/
inductive ITPOutcome
  | alreadyGenerated (b : InitBody)
  | success (data : ITPStatusResp)
  | timeout (id : String)
  | passthrough (b : InitBody)
  | unexpected
  | exc (e : PyExc)
  deriving DecidableEq, Repr

/-- `api_generate_itp` from `src/app.py`, after the `initialize_itp` call has
produced `init`: status 400 returns the body (ALREADY case); status 200 with
`generating is True` enters the poll loop with `pre_defined=True` hardcoded;
status 200 otherwise passes the body through; anything else is the
"Unexpected initialize response" fallback.  `KeyError`s on `body` / `id` are
caught by the handler's `except` into a 500 response, modelled by `.exc`. -/
def api_generate_itp (init : InitResp) (stores : Nat → ITPStores)
    (req : ITPRequest) : ITPOutcome :=
  if init.statusCode == 400 then
    match init.body with
    | none => .exc (.keyError "body")
    | some b => .alreadyGenerated b
  else if init.statusCode == 200 then
    match init.body with
    | none => .exc (.keyError "body")
    | some b =>
        if b.generating == some true then
          match b.id with
          | none => .exc (.keyError "id")
          | some itp_id =>
              let r := pollLoopAux stores itp_id req.user_id max_attempts 0
              match r.outcome with
              | .success d => .success d
              | .timeout i => .timeout i
        else .passthrough b
  else .unexpected

/-! ## Generate-and-store workflow (`/generate_icp`)

The handler (its `try:` is commented out in the source, so exceptions escape)
reads the request fields, posts a generate payload built from
`data["topic"] / ["audience"] / ["icp_UUID"] / ["description"]` to the
external generator, and on a 200 forwards `resp["course"]` to the
`createPredefinedModule` Lambda. -/

/-- The JSON fields of a `/generate_icp` request the handler reads; fields
read with `data[...]` raise `KeyError` when `none`. -/
structure ICPRequest where
  subject_id : Option String
  topic_id : Option String
  tenantEmail : Option String
  topic : Option String
  audience : Option String
  icp_UUID : Option String
  description : Option String
  deriving DecidableEq, Repr

/-- One response of the external generate-course API: its HTTP status, whether
its text parses as JSON, and the `course` field of the parsed body (`none`
when the key is absent). -/
structure GenResp where
  status_code : Nat
  jsonOk : Bool
  course : Option String
  deriving DecidableEq, Repr

/-- One response envelope of the `createPredefinedModule` Lambda:
`{statusCode, body}`. -/
structure LambdaResp where
  statusCode : Nat
  body : String
  deriving DecidableEq, Repr

/-- The external world of `/generate_icp`: how many generator / Lambda calls
happened so far, and the response each call receives (indexed by call
number). -/
structure ICPWorld where
  genCalls : Nat
  lambdaCalls : Nat
  genResp : Nat → GenResp
  lambdaResp : Nat → LambdaResp

/-- What `/generate_icp` produces: a 200 or 400 JSON response, the Python
`None` fall-through (the function body ends without `return`, which Flask
turns into a framework error), or an uncaught exception. -/
inductive ICPResult
  | ok200 (status : String)
  | err400 (status : String)
  | noneReturned
  | exc (e : PyExc)
  deriving DecidableEq, Repr

/-- `data[k]` on an optional request field: the value, or `KeyError k`. -/
def reqField (f : Option String) (k : String) : Except PyExc String :=
  match f with
  | some v => .ok v
  | none => .error (.keyError k)

/-- Building `generate_payload` evaluates `data["topic"]`, `data["audience"]`,
`data["icp_UUID"]`, `data["description"]` in order; the first missing key
raises. -/
def icpPayloadFields (req : ICPRequest) :
    Except PyExc (String × String × String × String) := do
  let t ← reqField req.topic "topic"
  let a ← reqField req.audience "audience"
  let u ← reqField req.icp_UUID "icp_UUID"
  let d ← reqField req.description "description"
  .ok (t, a, u, d)

/-- `api_generate_icp` from `src/app.py`.  It builds the generate payload
(possible `KeyError`), always posts it to the generator (counted in
`genCalls`), and only when the status is 200 parses the body
(`json.loads` may raise), reads `resp["course"]` (`KeyError` when absent) and
invokes the Lambda; a Lambda `statusCode` of 200/400 yields the matching
response and any other value — like a generator status other than 200 —
falls off the end of the function (`noneReturned`).  No store is consulted
before the generator call and nothing is written afterwards. -/
def api_generate_icp (req : ICPRequest) (w : ICPWorld) : ICPResult × ICPWorld :=
  match icpPayloadFields req with
  | .error e => (.exc e, w)
  | .ok _payload =>
      let resp := w.genResp w.genCalls
      let w1 := { w with genCalls := w.genCalls + 1 }
      if resp.status_code == 200 then
        if resp.jsonOk then
          match resp.course with
          | none => (.exc (.keyError "course"), w1)
          | some _course =>
              let lresp := w1.lambdaResp w1.lambdaCalls
              let w2 := { w1 with lambdaCalls := w1.lambdaCalls + 1 }
              if lresp.statusCode == 200 then (.ok200 lresp.body, w2)
              else if lresp.statusCode == 400 then (.err400 lresp.body, w2)
              else (.noneReturned, w2)
        else (.exc .jsonDecodeError, w1)
      else (.noneReturned, w1)

/-- Two sequential invocations of `/generate_icp` with the same request,
threading the external world through. -/
def icpTwice (req : ICPRequest) (w : ICPWorld) :
    ICPResult × ICPResult × ICPWorld :=
  let (r1, w1) := api_generate_icp req w
  let (r2, w2) := api_generate_icp req w1
  (r1, r2, w2)

/-! ## Provisioning saga (`/process_all`)

Adapters are oracle functions; the two adapters that `raise` on failure
(`insert_subject_teacher_relation`, `insert_lesson_planner_payload`) are
modelled by success booleans, since the handler's `except` turns their
exceptions into a 400 error response. -/

/-- Python truthiness of an optional string (`None` and `""` are falsy). -/
def truthyStr : Option String → Bool
  | none => false
  | some s => !(s == "")

/-- The fields of `data["body"]` that `/process_all` reads.  Fields read with
`.get(k, "")` default to `""`; `teacher_id` and `student` default to
`None` / `[]`. -/
structure LessonData where
  lesson_planner_UUID : Option String
  grade : Option String
  section' : Option String
  period : Option String
  teacher_id : Option String
  student : Option (List String)
  deriving DecidableEq, Repr

/-- A `/process_all` request: `data.get("subject", "")` and `data["body"]`
(raising `KeyError` when absent). -/
structure ProcessAllRequest where
  subject : Option String
  body : Option LessonData
  deriving DecidableEq, Repr

/-- The item written to `Grade_and_Subject` in step 1. -/
structure LessonItem where
  id : String
  Created_at : String
  Grade : String
  Grade_and_Subject : String
  Grade_and_Subject_UI : String
  status : String
  Subject : String
  tenantEmail : String
  tenantName : String
  quiz_credit : Nat
  course_credit : Nat
  icon : String
  Period : String
  Section : String
  deriving DecidableEq, Repr

/-- The hardcoded `tenantEmail = "sierracanyon@edyou.com"` of `process_all`. -/
def tenantEmailConst : String := "sierracanyon@edyou.com"

/-- The hardcoded `tenantName = "Sierra Canyon"` of `process_all`. -/
def tenantNameConst : String := "Sierra Canyon"

/-- The hardcoded icon URL of `process_all`. -/
def iconConst : String :=
  "https://pollydemo2022.s3.us-west-2.amazonaws.com/icons/homework.png"

/-- Oracles for the saga's external calls.  `putItemOk` is the DynamoDB
`put_item` of step 1 (raises when false); `getSchoolId` and `insertSubject`
are the two HTTP calls inside `insert_into_school` (that helper catches all
its exceptions, so they are total and return what the code extracts from the
responses); `getStudentId` is `get_student_id_by_email`, whose body parsing
sits inside its own `try`/`except` and yields `None` on any parse failure.
`assignStatus` is one `assign_subject_to_student` call as observed by the
loop: `.ok (some s)` is a parsed dict body whose `status` field is `s`,
`.ok none` a dict body without that field (or the empty-text `{}` fallback),
and `.error` the raise path — `resp.json()` on a non-JSON 200 body has no
`try` around it, and `.get` on a non-dict body raises in the caller — which
escapes the step-2.5 loop.  `relationOk` and `plannerOk` are
`insert_subject_teacher_relation` / `insert_lesson_planner_payload`, which
raise on failure. -/
structure SagaEnv where
  putItemOk : Bool
  getSchoolId : String → Option String
  insertSubject : String → String → String → String → String → Option String
  getStudentId : String → Option String
  assignStatus : String → String → Except PyExc (Option String)
  relationOk : Bool
  plannerOk : Bool

/-- `insert_into_school` from `src/app.py`: resolve a school id from the
tenant email; when truthy, register the subject with
(name, grade, section, period, school id) and return the response's
`inserted_subject_id`; every failure path returns `None`. -/
def insert_into_school (env : SagaEnv) (tenantEmail grade section' period
    grade_and_subject_ui : String) : Option String :=
  match env.getSchoolId tenantEmail with
  | some school_id =>
      if school_id == "" then none
      else env.insertSubject grade_and_subject_ui grade section' period school_id
  | none => none

/-- Step 2.5 of `process_all`: for each student email in order, resolve a
student id (`not_found` when falsy) and call the assignment adapter,
classifying into `assigned` when its `status` is `"assigned"` and into
`failed` otherwise.  An assignment call that raises (non-JSON body, or
`.get` on a non-dict body) aborts the loop at that student: earlier
students' calls have happened, later students are never attempted, and the
exception escapes to the handler.  On completion returns
(assigned, not_found, failed); `assigned` and `failed` entries carry
(email, student_id) as in the response JSON. -/
def classifyStudents (env : SagaEnv) (subject_id : String) :
    List String →
      Except PyExc
        (List (String × String) × List String × List (String × String))
  | [] => .ok ([], [], [])
  | email :: rest =>
      match env.getStudentId email with
      | some sid =>
          if sid == "" then
            match classifyStudents env subject_id rest with
            | .error e => .error e
            | .ok (a, nf, f) => .ok (a, email :: nf, f)
          else
            match env.assignStatus sid subject_id with
            | .error e => .error e
            | .ok st =>
                if st == some "assigned" then
                  match classifyStudents env subject_id rest with
                  | .error e => .error e
                  | .ok (a, nf, f) => .ok ((email, sid) :: a, nf, f)
                else
                  match classifyStudents env subject_id rest with
                  | .error e => .error e
                  | .ok (a, nf, f) => .ok (a, nf, (email, sid) :: f)
      | none =>
          match classifyStudents env subject_id rest with
          | .error e => .error e
          | .ok (a, nf, f) => .ok (a, email :: nf, f)

/-- The guarded step 2.5: the classification loop runs only when the subject
id and the student list are truthy (`if subject_id and students:`), and is
skipped — with three empty lists — otherwise. -/
def sagaStudents (env : SagaEnv) (subject_id : Option String)
    (students : List String) :
    Except PyExc
      (List (String × String) × List String × List (String × String)) :=
  if truthyStr subject_id && !students.isEmpty then
    classifyStudents env (subject_id.getD "") students
  else .ok ([], [], [])

/-- The HTTP-level outcome of `/process_all`: the 200 success JSON with the
three per-student lists, or the 400 error JSON produced by the handler's
`except` branch. -/
inductive SagaHttp
  | success (uuid : String) (assigned : List (String × String))
      (notFound : List String) (failed : List (String × String))
  | error (msg : String)
  deriving DecidableEq, Repr

/-- Whether a `/process_all` outcome is the 200 success JSON. -/
def SagaHttp.isSuccess : SagaHttp → Bool
  | .success _ _ _ _ => true
  | .error _ => false

/-- Side effects of a `/process_all` run that the claims observe: the item
persisted in step 1 (if reached) and the email passed to the school
resolution of step 2 (if reached). -/
structure SagaTrace where
  itemWritten : Option LessonItem
  schoolEmail : Option String
  deriving DecidableEq, Repr

/-- `process_all` from `src/app.py`.  Reads `data["body"]` and
`body["lesson_planner_UUID"]` (`KeyError` → 400 error), builds the step-1
item with the hardcoded tenant fields and writes it (failure → 400 error),
calls `insert_into_school` with the hardcoded tenant email, runs step 2.5
when `subject_id` and the student list are truthy (an assignment call that
raises escapes the loop into the handler's `except` → 400 error), runs the
subject-teacher relation when `subject_id` and `teacher_id` are truthy (an
exception there → 400 error), always runs the lesson-planner insert (an
exception there → 400 error), and finally returns the 200 success JSON. -/
def process_all (req : ProcessAllRequest) (env : SagaEnv) (now : String) :
    SagaHttp × SagaTrace :=
  match req.body with
  | none => (.error "KeyError: body", ⟨none, none⟩)
  | some lesson_data =>
      match lesson_data.lesson_planner_UUID with
      | none => (.error "KeyError: lesson_planner_UUID", ⟨none, none⟩)
      | some lesson_uuid =>
          let subject := (req.subject.getD "").trim
          let grade := lesson_data.grade.getD ""
          let section' := lesson_data.section'.getD ""
          let period := lesson_data.period.getD ""
          let item : LessonItem :=
            { id := lesson_uuid, Created_at := now, Grade := grade,
              Grade_and_Subject := "TD: " ++ subject,
              Grade_and_Subject_UI := subject ++ " - Assignment",
              status := "Active", Subject := subject,
              tenantEmail := tenantEmailConst, tenantName := tenantNameConst,
              quiz_credit := 0, course_credit := 0, icon := iconConst,
              Period := period, Section := section' }
          if !env.putItemOk then (.error "put_item failed", ⟨none, none⟩)
          else
            let subject_id :=
              insert_into_school env tenantEmailConst grade section' period subject
            let students := lesson_data.student.getD []
            let trace : SagaTrace := ⟨some item, some tenantEmailConst⟩
            match sagaStudents env subject_id students with
            | .error e => (.error (pyExcMsg e), trace)
            | .ok (assigned, notFound, failed) =>
                if truthyStr subject_id && truthyStr lesson_data.teacher_id then
                  if env.relationOk then
                    if env.plannerOk then
                      (.success lesson_uuid assigned notFound failed, trace)
                    else (.error "planner insert failed", trace)
                  else (.error "subject-teacher relation failed", trace)
                else
                  if env.plannerOk then
                    (.success lesson_uuid assigned notFound failed, trace)
                  else (.error "planner insert failed", trace)

/-! ## Idempotent linker (`/update_student_subjects`)

The `Investor` table is a map from the `email` key to an item carrying its
stored `email` attribute and its `subject_list`. -/

/-- A row of the `Investor` table. -/
structure InvestorItem where
  email : String
  subject_list : List String
  deriving DecidableEq, Repr

/-- The `Investor` table as a key-value store. -/
def InvestorDB : Type := String → Option InvestorItem

/-- The lookup of `/update_student_subjects` (also of
`update_student_subject_list`): `get_item` by the given email, retried once
with the lowercased email when the first read found nothing and lowercasing
changes the key. -/
def lookupStudent (db : InvestorDB) (email : String) : Option InvestorItem :=
  match db email with
  | some it => some it
  | none =>
      if email.toLower != email then db email.toLower else none

/-- Per-email outcome inside `/update_student_subjects`: the email lands in
`not_found`, `already_linked` (carrying the stored email, no write), or
`updated_students` (carrying the stored email, one write). -/
inductive LinkResult
  | notFound
  | alreadyLinked (storedEmail : String)
  | updated (storedEmail : String)
  deriving DecidableEq, Repr

/-- One iteration of the `/update_student_subjects` loop for one email: look
the student up (with the lowercase retry); when found, append `lesson_uuid`
to `subject_list` and write back under the item's stored `email` key — but
only when the uuid is not already a member, in which case nothing is
written. -/
def linkStudentSubject (db : InvestorDB) (email lesson_uuid : String) :
    LinkResult × InvestorDB :=
  match lookupStudent db email with
  | none => (.notFound, db)
  | some it =>
      if lesson_uuid ∈ it.subject_list then (.alreadyLinked it.email, db)
      else
        let newItem : InvestorItem :=
          { it with subject_list := it.subject_list ++ [lesson_uuid] }
        (.updated it.email,
         fun k => if k == it.email then some newItem else db k)

/-! ## Concrete fixtures used by witnesses and counterexamples -/

/-- An `initialize` response that reports `{generating: true, id: "J1"}`. -/
def initGen : InitResp := ⟨200, some ⟨some true, some "J1"⟩⟩

/-- A request carrying a user email and an explicit `predefined = false`. -/
def reqUser : ITPRequest := ⟨some "u@x.com", some false⟩

/-- Stores whose predefined table always reports `Generated = False`. -/
def storeFalse : Nat → ITPStores :=
  fun _ => ⟨fun _ => some ⟨some false, some "T"⟩, fun _ _ => none⟩

/-- Stores in which the job record is absent from both tables. -/
def storeAbsent : Nat → ITPStores :=
  fun _ => ⟨fun _ => none, fun _ _ => none⟩

/-- Stores whose predefined table holds the job with its `Generated`
attribute absent. -/
def storeFlagAbsent : Nat → ITPStores :=
  fun _ => ⟨fun _ => some ⟨none, some "T"⟩, fun _ _ => none⟩

/-- Stores where only the user-scoped table (under user `u@x.com`, job `J1`)
holds the job, already generated; the predefined table is empty. -/
def storeUserOnly : Nat → ITPStores :=
  fun _ =>
    ⟨fun _ => none,
     fun u i =>
       if u == "u@x.com" && i == "J1" then some ⟨some true, some "T"⟩
       else none⟩

/-- A `/generate_icp` request with every field the handler reads present. -/
def icpReqFull : ICPRequest :=
  ⟨some "S1", some "T1", some "owner@x.com", some "Algebra", some "grade 7",
   some "U1", some "desc"⟩

/-- External world where the generator always succeeds with a `course` field
and the Lambda always answers `{statusCode: 200, body: "stored"}`. -/
def genOkWorld : ICPWorld :=
  ⟨0, 0, fun _ => ⟨200, true, some "COURSE"⟩, fun _ => ⟨200, "stored"⟩⟩

/-- External world where the generator always answers HTTP 500. -/
def genFailWorld : ICPWorld :=
  ⟨0, 0, fun _ => ⟨500, true, none⟩, fun _ => ⟨200, "stored"⟩⟩

/-- External world where the generator answers 200 with valid JSON lacking
the `course` field. -/
def genNoCourseWorld : ICPWorld :=
  ⟨0, 0, fun _ => ⟨200, true, none⟩, fun _ => ⟨200, "stored"⟩⟩

/-- A `/process_all` request with three student emails and a teacher id. -/
def sagaReq : ProcessAllRequest :=
  ⟨some "Math",
   some ⟨some "UUID1", some "7", some "A", some "2", some "T9",
         some ["a@x.com", "b@x.com", "c@x.com"]⟩⟩

/-- Saga oracles in which every step succeeds and no assignment call raises;
among the three students of `sagaReq`, `a@x.com` is assigned, `b@x.com` gets
a non-`assigned` response, and `c@x.com` resolves to no student id. -/
def envBase : SagaEnv :=
  ⟨true, fun _ => some "SCH1", fun _ _ _ _ _ => some "SUB1",
   fun e =>
     if e == "a@x.com" then some "ID-A"
     else if e == "b@x.com" then some "ID-B"
     else none,
   fun sid _ =>
     if sid == "ID-A" then .ok (some "assigned") else .ok (some "rejected"),
   true, true⟩

/-- `envBase`, but the subject-teacher relation insert fails (raises). -/
def envRelFail : SagaEnv := { envBase with relationOk := false }

/-- `envBase`, but the lesson-planner insert fails (raises). -/
def envPlanFail : SagaEnv := { envBase with plannerOk := false }

/-- `envBase`, but the assignment call for student id `ID-A` answers 200
with a body that `resp.json()` cannot parse, so the call raises. -/
def envAssignRaise : SagaEnv :=
  { envBase with
    assignStatus := fun sid _ =>
      if sid == "ID-A" then .error .jsonDecodeError
      else .ok (some "rejected") }

/-- An `Investor` table holding one student stored under `stu@x.com` whose
subject list contains one unrelated uuid. -/
def dbW : InvestorDB :=
  fun k => if k = "stu@x.com" then some ⟨"stu@x.com", ["OLD"]⟩ else none

/-! ## Shared lemmas about the poll loop -/

/-- If every attempt of the poll loop reads a falsy `isGenerated`, the loop
exhausts its fuel: timeout, one attempt and one 3-unit sleep per unit of
fuel. -/
theorem pollLoopAux_falsy (stores : Nat → ITPStores) (itp_id : String)
    (user_id : Option String)
    (h : ∀ k, truthyGenFlag
      (check_itp_status_local (stores k) itp_id user_id true).isGenerated
        = false) :
    ∀ fuel k, pollLoopAux stores itp_id user_id fuel k =
      ⟨.timeout itp_id, fuel, fuel * interval⟩ := by
  intro fuel
  induction fuel with
  | zero => intro k; rfl
  | succ m ih =>
      intro k
      simp only [pollLoopAux, h k, Bool.false_eq_true, if_false, ih (k + 1)]
      simp [Nat.succ_mul]

/-- The poll loop with `pre_defined=True` reads only the predefined table:
its result is unchanged by replacing the user-scoped table and the user id.
-/
theorem pollLoopAux_reads_only_questionProd (s s' : Nat → ITPStores)
    (itp_id : String) (u u' : Option String)
    (h : ∀ k, (s k).questionProd = (s' k).questionProd) :
    ∀ fuel k, pollLoopAux s itp_id u fuel k = pollLoopAux s' itp_id u' fuel k := by
  intro fuel
  induction fuel with
  | zero => intro k; rfl
  | succ m ih =>
      intro k
      have hc : check_itp_status_local (s k) itp_id u true =
          check_itp_status_local (s' k) itp_id u' true := by
        simp [check_itp_status_local, h k]
      simp only [pollLoopAux, hc, ih (k + 1)]

/-! ## Claim C6: 80 polls at interval 3, then TIMEOUT -/

/-- Claim C6: in the dispatch-and-poll workflow, if every status poll reports
the completion flag `false`, the loop performs exactly 80 poll attempts, each
preceded by a fixed 3-unit sleep (240 units in total), and then returns the
TIMEOUT result carrying the job id — a structured response, not an
exception — and no 81st poll attempt occurs. -/
theorem generate_itp_timeout_after_80_polls (init : InitResp)
    (stores : Nat → ITPStores) (req : ITPRequest) (b : InitBody) (j : String)
    (hsc : init.statusCode = 200) (hb : init.body = some b)
    (hgen : b.generating = some true) (hid : b.id = some j)
    (hfalse : ∀ k, ∃ item, (stores k).questionProd j = some item ∧
      item.Generated = some false) :
    api_generate_itp init stores req = .timeout j ∧
    pollLoopAux stores j req.user_id max_attempts 0 =
      ⟨.timeout j, 80, 240⟩ := by
  have hfalsy : ∀ k, truthyGenFlag
      (check_itp_status_local (stores k) j req.user_id true).isGenerated
        = false := by
    intro k
    obtain ⟨item, hit, hgenf⟩ := hfalse k
    simp [check_itp_status_local, hit, hgenf, truthyGenFlag]
  have hrun := pollLoopAux_falsy stores j req.user_id hfalsy max_attempts 0
  refine ⟨?_, ?_⟩
  · simp [api_generate_itp, hsc, hb, hgen, hid, hrun]
  · simpa [max_attempts, interval] using hrun

/-- Witness for C6 at a concrete initialize response, stores and request. -/
theorem generate_itp_timeout_after_80_polls_witness :
    api_generate_itp initGen storeFalse reqUser = .timeout "J1" ∧
    pollLoopAux storeFalse "J1" reqUser.user_id max_attempts 0 =
      ⟨.timeout "J1", 80, 240⟩ :=
  generate_itp_timeout_after_80_polls initGen storeFalse reqUser
    ⟨some true, some "J1"⟩ "J1" rfl rfl rfl rfl
    (fun _ => ⟨⟨some false, some "T"⟩, rfl, rfl⟩)

/-! ## Claim C9: an absent record is retried, not surfaced as ERROR -/

/-- Claim C9 counterexample: with the job record absent from the status store
at every poll, the workflow does not stop after the first absent observation
— it performs all 80 poll attempts and ends in TIMEOUT, not in a surfaced
ERROR state. -/
theorem generate_itp_absent_record_counterexample :
    api_generate_itp initGen storeAbsent reqUser = .timeout "J1" ∧
    (pollLoopAux storeAbsent "J1" reqUser.user_id max_attempts 0).attempts
      = 80 := by
  have hfalsy : ∀ k, truthyGenFlag
      (check_itp_status_local (storeAbsent k) "J1" reqUser.user_id
        true).isGenerated = false := fun _ => rfl
  have hrun := pollLoopAux_falsy storeAbsent "J1" reqUser.user_id hfalsy
    max_attempts 0
  refine ⟨?_, ?_⟩
  · simp [api_generate_itp, initGen, hrun]
  · rw [hrun]; rfl

/-- Claim C9 amended: a poll that finds the record absent gets the 404
"ITP not found" response, whose missing `isGenerated` key is falsy, so the
loop treats it like still-in-progress and keeps polling; if the record stays
absent, the workflow performs all 80 attempts and returns TIMEOUT — absence
never yields a surfaced ERROR within the invocation. -/
theorem generate_itp_absent_records_time_out (init : InitResp)
    (stores : Nat → ITPStores) (req : ITPRequest) (b : InitBody) (j : String)
    (hsc : init.statusCode = 200) (hb : init.body = some b)
    (hgen : b.generating = some true) (hid : b.id = some j)
    (habs : ∀ k, (stores k).questionProd j = none) :
    api_generate_itp init stores req = .timeout j ∧
    pollLoopAux stores j req.user_id max_attempts 0 =
      ⟨.timeout j, 80, 240⟩ := by
  have hfalsy : ∀ k, truthyGenFlag
      (check_itp_status_local (stores k) j req.user_id true).isGenerated
        = false := by
    intro k
    simp [check_itp_status_local, habs k, truthyGenFlag]
  have hrun := pollLoopAux_falsy stores j req.user_id hfalsy max_attempts 0
  refine ⟨?_, ?_⟩
  · simp [api_generate_itp, hsc, hb, hgen, hid, hrun]
  · simpa [max_attempts, interval] using hrun

/-- Witness for the amended C9 at concrete inputs. -/
theorem generate_itp_absent_records_time_out_witness :
    api_generate_itp initGen storeAbsent reqUser = .timeout "J1" ∧
    pollLoopAux storeAbsent "J1" reqUser.user_id max_attempts 0 =
      ⟨.timeout "J1", 80, 240⟩ :=
  generate_itp_absent_records_time_out initGen storeAbsent reqUser
    ⟨some true, some "J1"⟩ "J1" rfl rfl rfl rfl (fun _ => rfl)

/-! ## Claim C3: a record with its completion flag absent -/

/-- Claim C3 (code bug evaluation): when the polled record's `Generated`
attribute is absent, `check_itp_status_local` answers
`{"statusCode": 400, "isGenerated": "error"}`, but the workflow's truthiness
test on `isGenerated` accepts the nonempty string `"error"`, so the very
first poll makes `api_generate_itp` return the HTTP-200 "success / ITP
generated successfully" response wrapping that error record — a success
outcome, not the ERROR outcome the specification describes. -/
theorem generate_itp_flag_absent_reported_success :
    api_generate_itp initGen storeFlagAbsent reqUser =
      .success ⟨400, some .vErrorStr, none, none, none⟩ ∧
    (pollLoopAux storeFlagAbsent "J1" reqUser.user_id max_attempts 0).attempts
      = 1 := by
  refine ⟨rfl, rfl⟩

/-! ## Claim C4: which store does each poll read? -/

/-- Claim C4 counterexample: the request carries `predefined = false` and a
user email, and the user-scoped store already holds the completed job under
(that email, `"J1"`) — a poll honouring the request's flag would return the
generated job at once (second conjunct) — yet the workflow times out after
polling only the predefined store, which is empty. -/
theorem generate_itp_store_selection_counterexample :
    api_generate_itp initGen storeUserOnly reqUser = .timeout "J1" ∧
    check_itp_status_local (storeUserOnly 0) "J1" reqUser.user_id false =
      ⟨200, some .vTrue, some "J1", some "T", none⟩ := by
  have hfalsy : ∀ k, truthyGenFlag
      (check_itp_status_local (storeUserOnly k) "J1" reqUser.user_id
        true).isGenerated = false := fun _ => rfl
  have hrun := pollLoopAux_falsy storeUserOnly "J1" reqUser.user_id hfalsy
    max_attempts 0
  refine ⟨?_, rfl⟩
  simp [api_generate_itp, initGen, hrun]

/-- Claim C4 amended: `check_itp_status_local` does select the table by its
`pre_defined` parameter, but `api_generate_itp` hardcodes
`pre_defined=True` on every poll, so the workflow's outcome depends only on
the initialize response and the predefined table: replacing the entire
user-scoped table and the whole request (its user id and any `predefined`
flag) never changes the result. -/
theorem generate_itp_poll_ignores_request_flag (init : InitResp)
    (s s' : Nat → ITPStores) (req req' : ITPRequest)
    (h : ∀ k, (s k).questionProd = (s' k).questionProd) :
    api_generate_itp init s req = api_generate_itp init s' req' := by
  have key : ∀ j, pollLoopAux s j req.user_id max_attempts 0 =
      pollLoopAux s' j req'.user_id max_attempts 0 :=
    fun j => pollLoopAux_reads_only_questionProd s s' j req.user_id
      req'.user_id h max_attempts 0
  simp only [api_generate_itp, key]

/-- Witness for the amended C4: the user-only stores and the empty stores
agree on the predefined table, so two entirely different requests (one with
`predefined=false` and a user id, one with `predefined=true` and none)
produce identical outcomes. -/
theorem generate_itp_poll_ignores_request_flag_witness :
    api_generate_itp initGen storeUserOnly reqUser =
      api_generate_itp initGen storeAbsent ⟨none, some true⟩ :=
  generate_itp_poll_ignores_request_flag initGen storeUserOnly storeAbsent
    reqUser ⟨none, some true⟩ (fun _ => rfl)

/-! ## Claim C1: no dedup guard on `/generate_icp` -/

/-- Claim C1 counterexample: two sequential `/generate_icp` invocations with
the same owner email and topic id (the fields of `icpReqFull`) invoke the
external generator twice — `genCalls` ends at 2 — and the second invocation
repeats the full generate-and-forward work, returning the same 200 response
as the first instead of any ALREADY_EXISTS result; no dedup record is
consulted or written anywhere in the handler. -/
theorem generate_icp_no_dedup_counterexample :
    (icpTwice icpReqFull genOkWorld).2.2.genCalls = 2 ∧
    (icpTwice icpReqFull genOkWorld).1 = .ok200 "stored" ∧
    (icpTwice icpReqFull genOkWorld).2.1 = .ok200 "stored" := by
  refine ⟨rfl, rfl, rfl⟩

/-- Claim C1 amended: `/generate_icp` has no dedup guard at all — every
invocation whose payload fields are present calls the external generator
exactly once, unconditionally, so two sequential invocations with the same
owner email and topic id invoke it exactly twice and no invocation returns
an ALREADY_EXISTS outcome. -/
theorem generate_icp_always_calls_generator (req : ICPRequest) (w : ICPWorld)
    (p : String × String × String × String)
    (hp : icpPayloadFields req = .ok p) :
    (api_generate_icp req w).2.genCalls = w.genCalls + 1 ∧
    (icpTwice req w).2.2.genCalls = w.genCalls + 2 := by
  have h1 : ∀ w' : ICPWorld, (api_generate_icp req w').2.genCalls
      = w'.genCalls + 1 := by
    intro w'
    simp only [api_generate_icp, hp]
    repeat' split
    all_goals rfl
  refine ⟨h1 w, ?_⟩
  show (api_generate_icp req (api_generate_icp req w).2).2.genCalls
    = w.genCalls + 2
  rw [h1 (api_generate_icp req w).2, h1 w]

/-- Witness for the amended C1 at the concrete request and world. -/
theorem generate_icp_always_calls_generator_witness :
    (api_generate_icp icpReqFull genOkWorld).2.genCalls
      = genOkWorld.genCalls + 1 ∧
    (icpTwice icpReqFull genOkWorld).2.2.genCalls
      = genOkWorld.genCalls + 2 :=
  generate_icp_always_calls_generator icpReqFull genOkWorld
    ("Algebra", "grade 7", "U1", "desc") rfl

/-! ## Claim C5: upstream failures on `/generate_icp` -/

/-- Claim C5 counterexample: with the generator answering a non-success
status, the handler falls off the end of the function and returns Python
`None` — no structured UPSTREAM_ERROR result — and with the generator
answering 200 without the expected `course` field, an uncaught `KeyError`
escapes the handler (its `try` is commented out) instead of any structured
MALFORMED_UPSTREAM result. -/
theorem generate_icp_upstream_counterexample :
    (api_generate_icp icpReqFull genFailWorld).1 = .noneReturned ∧
    (api_generate_icp icpReqFull genNoCourseWorld).1
      = .exc (.keyError "course") := by
  refine ⟨rfl, rfl⟩

/-- Claim C5 amended: a generator response with non-success status makes the
handler fall through and produce no response at all (Python `None`), and a
success response lacking the `course` payload field raises a `KeyError` that
escapes the handler uncaught; in neither case does the caller receive a
structured UPSTREAM_ERROR or MALFORMED_UPSTREAM result, and no dedup record
exists to be written or skipped. -/
theorem generate_icp_upstream_failures (req : ICPRequest) (w : ICPWorld)
    (p : String × String × String × String)
    (hp : icpPayloadFields req = .ok p) :
    ((w.genResp w.genCalls).status_code ≠ 200 →
      (api_generate_icp req w).1 = .noneReturned) ∧
    ((w.genResp w.genCalls).status_code = 200 →
      (w.genResp w.genCalls).jsonOk = true →
      (w.genResp w.genCalls).course = none →
      (api_generate_icp req w).1 = .exc (.keyError "course")) := by
  constructor
  · intro hne
    simp [api_generate_icp, hp, hne]
  · intro hsc hjs hco
    simp [api_generate_icp, hp, hsc, hjs, hco]

/-- Witness for the amended C5: both hypotheses discharged at the concrete
failing worlds. -/
theorem generate_icp_upstream_failures_witness :
    (api_generate_icp icpReqFull genFailWorld).1 = .noneReturned ∧
    (api_generate_icp icpReqFull genNoCourseWorld).1
      = .exc (.keyError "course") := by
  have h1 := (generate_icp_upstream_failures icpReqFull genFailWorld
    ("Algebra", "grade 7", "U1", "desc") rfl).1
  have h2 := (generate_icp_upstream_failures icpReqFull genNoCourseWorld
    ("Algebra", "grade 7", "U1", "desc") rfl).2
  exact ⟨h1 (by decide), h2 rfl rfl rfl⟩

/-! ## Shared lemmas about the student-classification loop -/

/-- When the classification loop completes without an assignment raise,
every email occurrence of the input is classified into exactly one of the
three lists: the per-email occurrence counts of `assigned`, `not_found` and
`failed` sum to the occurrence count in the input, and the lengths of the
three lists sum to the input length. -/
theorem classifyStudents_partition (env : SagaEnv) (sid : String) :
    ∀ (students : List String) (a : List (String × String)) (nf : List String)
      (f : List (String × String)),
      classifyStudents env sid students = .ok (a, nf, f) →
      (∀ e, (a.map Prod.fst).count e + nf.count e
          + (f.map Prod.fst).count e = students.count e) ∧
      a.length + nf.length + f.length = students.length := by
  intro students
  induction students with
  | nil =>
      intro a nf f hcl
      simp only [classifyStudents, Except.ok.injEq, Prod.mk.injEq] at hcl
      obtain ⟨ha, hnf, hf⟩ := hcl
      subst ha; subst hnf; subst hf
      simp
  | cons x rest ih =>
      intro a nf f hcl
      simp only [classifyStudents] at hcl
      rcases hg : env.getStudentId x with _ | sid' <;> simp only [hg] at hcl
      · rcases hrec : classifyStudents env sid rest with e0 | ⟨a', nf', f'⟩ <;>
          simp [hrec] at hcl
        obtain ⟨ha, hnf, hf⟩ := hcl
        subst ha; subst hnf; subst hf
        obtain ⟨ihc, ihl⟩ := ih a' nf' f' hrec
        refine ⟨fun e => ?_, ?_⟩
        · have := ihc e
          simp only [List.count_cons]
          omega
        · simp only [List.length_cons]
          omega
      · by_cases h0 : (sid' == "") = true
        · simp only [h0, if_true] at hcl
          rcases hrec : classifyStudents env sid rest with e0 | ⟨a', nf', f'⟩ <;>
            simp [hrec] at hcl
          obtain ⟨ha, hnf, hf⟩ := hcl
          subst ha; subst hnf; subst hf
          obtain ⟨ihc, ihl⟩ := ih a' nf' f' hrec
          refine ⟨fun e => ?_, ?_⟩
          · have := ihc e
            simp only [List.count_cons]
            omega
          · simp only [List.length_cons]
            omega
        · simp only [h0, Bool.false_eq_true, if_false] at hcl
          rcases has : env.assignStatus sid' sid with e0 | st <;>
            simp [has] at hcl
          by_cases hst : st = some "assigned"
          · simp [hst] at hcl
            rcases hrec : classifyStudents env sid rest with e0 | ⟨a', nf', f'⟩ <;>
              simp [hrec] at hcl
            obtain ⟨ha, hnf, hf⟩ := hcl
            subst ha; subst hnf; subst hf
            obtain ⟨ihc, ihl⟩ := ih a' nf' f' hrec
            refine ⟨fun e => ?_, ?_⟩
            · have := ihc e
              simp only [List.map_cons, List.count_cons]
              omega
            · simp only [List.length_cons]
              omega
          · simp [hst] at hcl
            rcases hrec : classifyStudents env sid rest with e0 | ⟨a', nf', f'⟩ <;>
              simp [hrec] at hcl
            obtain ⟨ha, hnf, hf⟩ := hcl
            subst ha; subst hnf; subst hf
            obtain ⟨ihc, ihl⟩ := ih a' nf' f' hrec
            refine ⟨fun e => ?_, ?_⟩
            · have := ihc e
              simp only [List.map_cons, List.count_cons]
              omega
            · simp only [List.length_cons]
              omega

/-! ## Claim C2: which saga step failures abort `/process_all`? -/

/-- Claim C2 counterexample: with step 1 succeeding (`putItemOk = true`) and
the subject and teacher ids available, a failure of the subject-teacher
relation step turns the whole request into the 400 error response, and so
does a failure of the lesson-planner persist step — the HTTP-level outcome
is not preserved, refuting "only step 1 success is required for a non-error
response". -/
theorem process_all_later_steps_abort_counterexample :
    (process_all sagaReq envRelFail "t0").1
      = .error "subject-teacher relation failed" ∧
    (process_all sagaReq envPlanFail "t0").1 = .error "planner insert failed" ∧
    envRelFail.putItemOk = true ∧ envPlanFail.putItemOk = true := by
  refine ⟨rfl, rfl, rfl, rfl⟩

/-- Claim C2 amended: step 2 (school resolution and subject registration)
and response-level per-student failures (no student id resolved, assignment
response not reporting success) degrade the report without aborting, but an
assignment call whose 200 body fails to parse as a dict raises out of the
step-2.5 loop, the subject-teacher relation step (when attempted, i.e. when
subject and teacher ids are truthy) raises on failure, and so does the
always-attempted lesson-planner persist step; each raise reaches the
handler's `except` and becomes the 400 error response.  A `/process_all`
request with a well-formed body yields the success response exactly when
step 1 succeeds, the guarded classification step completes without a raise,
the planner step succeeds, and the relation step succeeds whenever it is
attempted. -/
theorem process_all_success_characterization (req : ProcessAllRequest)
    (env : SagaEnv) (now : String) (ld : LessonData) (u : String)
    (hb : req.body = some ld) (hu : ld.lesson_planner_UUID = some u) :
    (process_all req env now).1.isSuccess =
      (env.putItemOk &&
        exceptOk (sagaStudents env (insert_into_school env tenantEmailConst
            (ld.grade.getD "") (ld.section'.getD "") (ld.period.getD "")
            ((req.subject.getD "").trim))
          (ld.student.getD [])) &&
        env.plannerOk &&
        (!(truthyStr (insert_into_school env tenantEmailConst (ld.grade.getD "")
              (ld.section'.getD "") (ld.period.getD "")
              ((req.subject.getD "").trim))
            && truthyStr ld.teacher_id)
          || env.relationOk)) := by
  simp only [process_all, hb, hu]
  rcases hcls : sagaStudents env (insert_into_school env tenantEmailConst
      (ld.grade.getD "") (ld.section'.getD "") (ld.period.getD "")
      ((req.subject.getD "").trim)) (ld.student.getD []) with e0 | ⟨a, nf, f⟩ <;>
    cases hput : env.putItemOk <;>
      cases hrel : env.relationOk <;>
        cases hplan : env.plannerOk <;>
          cases hcond : (truthyStr (insert_into_school env tenantEmailConst
              (ld.grade.getD "") (ld.section'.getD "") (ld.period.getD "")
              ((req.subject.getD "").trim)) && truthyStr ld.teacher_id) <;>
            simp [SagaHttp.isSuccess, exceptOk, hcls, hput, hrel, hplan,
              hcond]

/-- Witness for the amended C2 at the concrete request and failing oracle
set. -/
theorem process_all_success_characterization_witness :
    (process_all sagaReq envRelFail "t0").1.isSuccess =
      (envRelFail.putItemOk &&
        exceptOk (sagaStudents envRelFail (insert_into_school envRelFail
            tenantEmailConst
            ((LessonData.mk (some "UUID1") (some "7") (some "A") (some "2")
              (some "T9")
              (some ["a@x.com", "b@x.com", "c@x.com"])).grade.getD "")
            ((LessonData.mk (some "UUID1") (some "7") (some "A") (some "2")
              (some "T9")
              (some ["a@x.com", "b@x.com", "c@x.com"])).section'.getD "")
            ((LessonData.mk (some "UUID1") (some "7") (some "A") (some "2")
              (some "T9")
              (some ["a@x.com", "b@x.com", "c@x.com"])).period.getD "")
            ((sagaReq.subject.getD "").trim))
          ((LessonData.mk (some "UUID1") (some "7") (some "A") (some "2")
            (some "T9")
            (some ["a@x.com", "b@x.com", "c@x.com"])).student.getD [])) &&
        envRelFail.plannerOk &&
        (!(truthyStr (insert_into_school envRelFail tenantEmailConst
              ((LessonData.mk (some "UUID1") (some "7") (some "A") (some "2")
                (some "T9")
                (some ["a@x.com", "b@x.com", "c@x.com"])).grade.getD "")
              ((LessonData.mk (some "UUID1") (some "7") (some "A") (some "2")
                (some "T9")
                (some ["a@x.com", "b@x.com", "c@x.com"])).section'.getD "")
              ((LessonData.mk (some "UUID1") (some "7") (some "A") (some "2")
                (some "T9")
                (some ["a@x.com", "b@x.com", "c@x.com"])).period.getD "")
              ((sagaReq.subject.getD "").trim))
            && truthyStr (LessonData.mk (some "UUID1") (some "7") (some "A")
              (some "2") (some "T9")
              (some ["a@x.com", "b@x.com", "c@x.com"])).teacher_id)
          || envRelFail.relationOk)) :=
  process_all_success_characterization sagaReq envRelFail "t0"
    (LessonData.mk (some "UUID1") (some "7") (some "A") (some "2") (some "T9")
      (some ["a@x.com", "b@x.com", "c@x.com"])) "UUID1" rfl rfl

/-! ## Claim C8: the three per-student lists partition the input -/

/-- Claim C8 counterexample: with step 1 succeeding, a truthy subject id,
three listed students, and the relation and planner steps both fine, an
assignment call whose 200 body fails to parse raises out of the step-2.5
loop and aborts the saga into the 400 error response: the remaining students
are never attempted and no three-list report is produced, refuting "no
per-student failure aborts the loop". -/
theorem process_all_assignment_raise_counterexample :
    (process_all sagaReq envAssignRaise "t0").1 = .error "JSONDecodeError" ∧
    envAssignRaise.putItemOk = true ∧ envAssignRaise.relationOk = true ∧
    envAssignRaise.plannerOk = true := by
  refine ⟨rfl, rfl, rfl, rfl⟩

/-- Claim C8 amended: when step 2 produced a truthy subject id, the payload
lists student emails, and no assignment call raises (the classification loop
completes with a report — response-level failures never raise), the saga
attempts every listed email and classifies each into exactly one of
`assigned`, `not_found` or `failed`: the success response carries exactly
the three classification lists, their per-email occurrence counts sum to the
input's occurrence counts (no overlap and no omission), and their lengths
sum to the number of input emails; but an assignment call whose response
body fails to parse as a dict raises mid-loop and aborts the whole saga into
the 400 error response with no report. -/
theorem process_all_student_partition (req : ProcessAllRequest) (env : SagaEnv)
    (now : String) (ld : LessonData) (u sid : String) (students : List String)
    (a : List (String × String)) (nf : List String)
    (f : List (String × String))
    (hb : req.body = some ld) (hu : ld.lesson_planner_UUID = some u)
    (hput : env.putItemOk = true)
    (hsid : insert_into_school env tenantEmailConst (ld.grade.getD "")
      (ld.section'.getD "") (ld.period.getD "")
      ((req.subject.getD "").trim) = some sid)
    (hsid0 : sid ≠ "")
    (hstud : ld.student = some students) (hne : students ≠ [])
    (hcls : classifyStudents env sid students = .ok (a, nf, f))
    (hrel : truthyStr ld.teacher_id = true → env.relationOk = true)
    (hplan : env.plannerOk = true) :
    (process_all req env now).1 = .success u a nf f ∧
    (∀ e, (a.map Prod.fst).count e + nf.count e + (f.map Prod.fst).count e
        = students.count e) ∧
    a.length + nf.length + f.length = students.length := by
  obtain ⟨hc, hl⟩ :=
    classifyStudents_partition env sid students a nf f hcls
  refine ⟨?_, hc, hl⟩
  have hne' : students.isEmpty = false := by
    cases students
    · exact absurd rfl hne
    · rfl
  have htr : truthyStr (some sid) = true := by
    simp [truthyStr, hsid0]
  have hsag : sagaStudents env (some sid) students = .ok (a, nf, f) := by
    simp [sagaStudents, htr, hne', hcls]
  simp only [process_all, hb, hu, hput, hsid, hstud, hsag, Option.getD_some,
    Bool.not_true, Bool.false_eq_true, if_false]
  by_cases ht : truthyStr ld.teacher_id
  · simp [ht, htr, hrel ht, hplan]
  · simp [ht, hplan]

/-- Witness for the amended C8 at the concrete three-student request: one
student is assigned, one fails, one is not found, and the three singleton
lists partition the input. -/
theorem process_all_student_partition_witness :
    (process_all sagaReq envBase "t0").1 =
      .success "UUID1" [("a@x.com", "ID-A")] ["c@x.com"]
        [("b@x.com", "ID-B")] ∧
    (∀ e, ([("a@x.com", "ID-A")].map Prod.fst).count e
        + (["c@x.com"] : List String).count e
        + ([("b@x.com", "ID-B")].map Prod.fst).count e
        = (["a@x.com", "b@x.com", "c@x.com"] : List String).count e) ∧
    ([("a@x.com", "ID-A")] : List (String × String)).length
      + (["c@x.com"] : List String).length
      + ([("b@x.com", "ID-B")] : List (String × String)).length
      = (["a@x.com", "b@x.com", "c@x.com"] : List String).length :=
  process_all_student_partition sagaReq envBase "t0"
    (LessonData.mk (some "UUID1") (some "7") (some "A") (some "2") (some "T9")
      (some ["a@x.com", "b@x.com", "c@x.com"]))
    "UUID1" "SUB1" ["a@x.com", "b@x.com", "c@x.com"]
    [("a@x.com", "ID-A")] ["c@x.com"] [("b@x.com", "ID-B")]
    rfl rfl rfl rfl (by decide) rfl (by decide) rfl (fun _ => rfl) rfl

/-! ## Claim C10: the tenant identity is hardcoded -/

/-- Claim C10: for every `/process_all` request whose body and lesson UUID
are present and whose step-1 write succeeds, the persisted LessonRecord
carries the fixed owning-tenant fields
`tenantEmail = "sierracanyon@edyou.com"` and `tenantName = "Sierra Canyon"`,
and the step-2 school resolution is keyed by that same fixed email — the
request payload never supplies the tenant identity (the statement quantifies
over every request and oracle set). -/
theorem process_all_fixed_tenant (req : ProcessAllRequest) (env : SagaEnv)
    (now : String) (ld : LessonData) (u : String)
    (hb : req.body = some ld) (hu : ld.lesson_planner_UUID = some u)
    (hput : env.putItemOk = true) :
    ∃ it : LessonItem,
      (process_all req env now).2 = ⟨some it, some tenantEmailConst⟩ ∧
      it.tenantEmail = "sierracanyon@edyou.com" ∧
      it.tenantName = "Sierra Canyon" := by
  simp only [process_all, hb, hu, hput, Bool.not_true, Bool.false_eq_true,
    if_false]
  repeat' split
  all_goals exact ⟨_, rfl, rfl, rfl⟩

/-- Witness for C10 at the concrete request and oracles. -/
theorem process_all_fixed_tenant_witness :
    ∃ it : LessonItem,
      (process_all sagaReq envBase "t0").2 = ⟨some it, some tenantEmailConst⟩ ∧
      it.tenantEmail = "sierracanyon@edyou.com" ∧
      it.tenantName = "Sierra Canyon" :=
  process_all_fixed_tenant sagaReq envBase "t0"
    (LessonData.mk (some "UUID1") (some "7") (some "A") (some "2") (some "T9")
      (some ["a@x.com", "b@x.com", "c@x.com"]))
    "UUID1" rfl rfl rfl

/-! ## Claim C7: the idempotent linker -/

/-- Claim C7: on a key-consistent store, for an existing owner record and a
value not yet linked, two calls of the linker with the same arguments yield
`updated` (added) then `already_linked` (not added), the second call performs
no write (it returns the store unchanged), afterwards the owner's membership
list contains the value exactly once, and the at-most-once-per-student
invariant is preserved across the operation for every record. -/
theorem linker_idempotent (db : InvestorDB) (email uuid : String)
    (it : InvestorItem)
    (hcons : ∀ k r, db k = some r → r.email = k)
    (hfound : lookupStudent db email = some it)
    (hnew : uuid ∉ it.subject_list)
    (hinv : ∀ k r, db k = some r → r.subject_list.count uuid ≤ 1) :
    (linkStudentSubject db email uuid).1 = .updated it.email ∧
    linkStudentSubject (linkStudentSubject db email uuid).2 email uuid
      = (.alreadyLinked it.email, (linkStudentSubject db email uuid).2) ∧
    (∃ it1, lookupStudent (linkStudentSubject db email uuid).2 email = some it1
      ∧ it1.subject_list.count uuid = 1) ∧
    (∀ k r, (linkStudentSubject db email uuid).2 k = some r →
      r.subject_list.count uuid ≤ 1) := by
  have hcases : (db email = some it ∧ it.email = email) ∨
      (db email = none ∧ email.toLower ≠ email ∧
        db email.toLower = some it ∧ it.email = email.toLower) := by
    unfold lookupStudent at hfound
    cases h0 : db email with
    | some x =>
        simp only [h0, Option.some.injEq] at hfound
        rw [hfound] at h0
        exact Or.inl ⟨by rw [hfound], hcons email it h0⟩
    | none =>
        simp only [h0] at hfound
        by_cases htl : (email.toLower != email) = true
        · rw [if_pos htl] at hfound
          exact Or.inr ⟨rfl, bne_iff_ne.mp htl, hfound,
            hcons email.toLower it hfound⟩
        · rw [if_neg htl] at hfound
          exact absurd hfound (by simp)
  have hr1 : (linkStudentSubject db email uuid).1 = .updated it.email := by
    simp [linkStudentSubject, hfound, hnew]
  have hdb2 : (linkStudentSubject db email uuid).2 =
      fun k => if k == it.email
        then some { it with subject_list := it.subject_list ++ [uuid] }
        else db k := by
    simp [linkStudentSubject, hfound, hnew]
  have hpt : ∀ k, (linkStudentSubject db email uuid).2 k =
      if k == it.email
        then some { it with subject_list := it.subject_list ++ [uuid] }
        else db k := fun k => by rw [hdb2]
  have hlook1 : lookupStudent (linkStudentSubject db email uuid).2 email =
      some { it with subject_list := it.subject_list ++ [uuid] } := by
    rcases hcases with ⟨h0, he⟩ | ⟨h0, htl, hlow, he⟩
    · have hbeq : (email == it.email) = true := by
        rw [he]; exact beq_self_eq_true email
      unfold lookupStudent
      rw [hpt email, if_pos hbeq]
    · have hbeq : (email == it.email) = false := by
        rw [he]; exact beq_eq_false_iff_ne.mpr (Ne.symm htl)
      have hbeq2 : (email.toLower == it.email) = true := by
        rw [he]; exact beq_self_eq_true email.toLower
      have hbne : (email.toLower != email) = true := bne_iff_ne.mpr htl
      unfold lookupStudent
      rw [hpt email, if_neg (by simp [hbeq]), h0]
      rw [if_pos hbne, hpt email.toLower, if_pos hbeq2]
  have hmem : uuid ∈ ({ it with
      subject_list := it.subject_list ++ [uuid] } : InvestorItem).subject_list := by
    simp
  have hcount : ({ it with subject_list := it.subject_list ++ [uuid] } :
      InvestorItem).subject_list.count uuid = 1 := by
    simp [List.count_append, List.count_eq_zero.mpr hnew]
  refine ⟨hr1, ?_, ⟨_, hlook1, hcount⟩, ?_⟩
  · generalize hdb : (linkStudentSubject db email uuid).2 = db2 at hlook1 ⊢
    simp [linkStudentSubject, hlook1, hmem]
  · intro k r h
    rw [hpt k] at h
    by_cases hk : (k == it.email) = true
    · rw [if_pos hk] at h
      injection h with h'
      subst h'
      exact hcount.le
    · rw [if_neg hk] at h
      exact hinv k r h

/-- Witness for C7 at a concrete one-student store and a fresh uuid. -/
theorem linker_idempotent_witness :
    (linkStudentSubject dbW "stu@x.com" "NEW").1 = .updated "stu@x.com" ∧
    linkStudentSubject (linkStudentSubject dbW "stu@x.com" "NEW").2
        "stu@x.com" "NEW"
      = (.alreadyLinked "stu@x.com",
         (linkStudentSubject dbW "stu@x.com" "NEW").2) ∧
    (∃ it1, lookupStudent (linkStudentSubject dbW "stu@x.com" "NEW").2
        "stu@x.com" = some it1 ∧ it1.subject_list.count "NEW" = 1) ∧
    (∀ k r, (linkStudentSubject dbW "stu@x.com" "NEW").2 k = some r →
      r.subject_list.count "NEW" ≤ 1) := by
  have hcons : ∀ k r, dbW k = some r → r.email = k := by
    intro k r h
    by_cases hk : k = "stu@x.com"
    · subst hk
      rw [show dbW "stu@x.com" = some ⟨"stu@x.com", ["OLD"]⟩ from rfl] at h
      injection h with h'
      rw [← h']
    · simp [dbW, hk] at h
  have hinv : ∀ k r, dbW k = some r → r.subject_list.count "NEW" ≤ 1 := by
    intro k r h
    by_cases hk : k = "stu@x.com"
    · subst hk
      rw [show dbW "stu@x.com" = some ⟨"stu@x.com", ["OLD"]⟩ from rfl] at h
      injection h with h'
      rw [← h']
      decide
    · simp [dbW, hk] at h
  exact linker_idempotent dbW "stu@x.com" "NEW" ⟨"stu@x.com", ["OLD"]⟩
    hcons (by decide) (by decide) hinv

end TeacherDashboard
